import Mathlib

/-!
Shallow embedding of the trello2md conversion core, in its two observed
variants:

* V2 (src/index.js): the reshaper skips lists whose `closed` flag is true and
  filters cards to `closed == false`; the renderer guards the mapping probe
  (`if (!trelloObject[list.id]) return;`) and its checklist heading has an
  empty pre-text (`CHECKLIST_PRE_TEXT = ""`).
* V0 (src/unnamed/part_000): the reshaper keeps every list and every matching
  card; the renderer probes the mapping without a guard (dereferencing a
  missing entry is a TypeError, modelled as `Option.none`), and its checklist
  heading carries the literal pre-text "Checklist: ".

Both variants store the reshaped mapping on one process-global object
(`var intObject = Object;` assigns the global `Object` constructor itself), so
the reshaper is modelled as a state transformer on the mapping: it receives the
current global mapping and returns the updated one. A fresh process starts from
`emptyTMap`.

JavaScript `new Date(s).getFullYear() / getMonth() / getDate()` decompose a
timestamp in the host's local timezone. The renderer therefore takes an `Env`
parameter mapping the raw date string to that host-dependent triple
(full year, zero-based month, day of month). `dateUTC` is the decomposition a
host running at UTC computes for ISO `YYYY-MM-DDTHH:MM:SSZ` strings.

The `desc` field of a card is `Option String`: `none` models a record exported
without the field (JavaScript `undefined`). The renderer's comparison
`card.desc !== ""` is true for `undefined`, and string concatenation coerces
`undefined` to the text "undefined"; `descText` captures that coercion.
-/

namespace Trello2md

structure Label where
  name : String
deriving DecidableEq, Repr

structure CheckItem where
  name : String
  state : String
deriving DecidableEq, Repr

structure Checklist where
  name : String
  idCard : String
  checkItems : List CheckItem
deriving DecidableEq, Repr

structure ActionCardRef where
  id : String
deriving DecidableEq, Repr

structure ActionData where
  card : ActionCardRef
  text : String
deriving DecidableEq, Repr

structure Action where
  type : String
  date : String
  data : ActionData
deriving DecidableEq, Repr

structure Card where
  id : String
  name : String
  desc : Option String
  labels : List Label
  idList : String
  closed : Bool
deriving DecidableEq, Repr

structure TrelloList where
  id : String
  name : String
  closed : Bool
deriving DecidableEq, Repr

structure Board where
  name : String
  lists : List TrelloList
  cards : List Card
  actions : List Action
  checklists : List Checklist
deriving DecidableEq, Repr

/-- A card as it sits in the reshaped mapping: the exported record plus the
`ACTIONS` and `CHECKLISTS` collections the reshaper attaches to it. -/
structure EnrichedCard where
  card : Card
  ACTIONS : List Action
  CHECKLISTS : List Checklist
deriving DecidableEq, Repr

/-- A list entry of the reshaped mapping: the exported list record plus its
attached `CARDS` collection. -/
structure EnrichedList where
  list : TrelloList
  CARDS : List EnrichedCard
deriving DecidableEq, Repr

/-- The reshaped mapping: JavaScript object keyed by list id; probing a key
that was never written yields `none` (JavaScript `undefined`). -/
def TMap : Type := String → Option EnrichedList

/-- Property write `m[k] = v` on the mapping object. -/
def tset (m : TMap) (k : String) (v : EnrichedList) : TMap :=
  fun x => if x = k then some v else m x

/-- The mapping state of a process in which no reshape call has run yet. -/
def emptyTMap : TMap := fun _ => none

/-- Attach `ACTIONS` (actions with `type == "commentCard"` whose
`data.card.id` equals the card's id, in export order) and `CHECKLISTS`
(checklists whose `idCard` equals the card's id, in export order) to a card;
shared by both variants (src/index.js lines 40-56, part_000 lines 31-47). -/
def enrichCard (jsonObject : Board) (card : Card) : EnrichedCard :=
  { card := card
  , ACTIONS := jsonObject.actions.filter
      (fun a => a.type == "commentCard" && a.data.card.id == card.id)
  , CHECKLISTS := jsonObject.checklists.filter (fun cl => cl.idCard == card.id) }

/-- V2 list entry: cards are filtered to `idList == list.id && closed == false`
(src/index.js lines 30-37). -/
def listEntry (jsonObject : Board) (list : TrelloList) : EnrichedList :=
  { list := list
  , CARDS := (jsonObject.cards.filter
      (fun c => c.idList == list.id && c.closed == false)).map (enrichCard jsonObject) }

/-- V0 list entry: cards are filtered only by `idList == list.id`
(part_000 line 27). -/
def listEntryV0 (jsonObject : Board) (list : TrelloList) : EnrichedList :=
  { list := list
  , CARDS := (jsonObject.cards.filter
      (fun c => c.idList == list.id)).map (enrichCard jsonObject) }

/-- One iteration of the V2 reshaper's list loop: a closed list is skipped
(src/index.js lines 25-28), otherwise `intObject[list.id]` is written. -/
def reshapeStep (jsonObject : Board) (m : TMap) (list : TrelloList) : TMap :=
  if list.closed = true then m
  else tset m list.id (listEntry jsonObject list)

/-- `convertJsonToInternalObject` of src/index.js, as a transformer of the
process-global mapping (`var intObject = Object;`): it folds the list loop
over the input's `lists` starting from the current global state and returns
the updated global state. -/
def convertJsonToInternalObject (intObject : TMap) (jsonObject : Board) : TMap :=
  jsonObject.lists.foldl (reshapeStep jsonObject) intObject

/-- One iteration of the V0 reshaper's list loop: every list is written,
closed or not (part_000 lines 22-28). -/
def reshapeStepV0 (jsonObject : Board) (m : TMap) (list : TrelloList) : TMap :=
  tset m list.id (listEntryV0 jsonObject list)

/-- `convertJsonToInternalObject` of part_000, likewise a transformer of the
process-global mapping. -/
def convertJsonToInternalObjectV0 (intObject : TMap) (jsonObject : Board) : TMap :=
  jsonObject.lists.foldl (reshapeStepV0 jsonObject) intObject

/-- Host-environment date decomposition: for a raw `action.date` string, the
triple (`getFullYear()`, `getMonth()` (zero-based), `getDate()`) that
`new Date(action.date)` yields on that host. -/
def Env : Type := String → Int × Nat × Nat

/-- Numeric value of a sequence of decimal digit characters. -/
def digitsVal (l : List Char) : Nat :=
  l.foldl (fun n c => n * 10 + (c.toNat - 48)) 0

/-- The decomposition a UTC host computes for an ISO `YYYY-MM-DDTHH:MM:SSZ`
string: year from the first four characters, zero-based month from characters
five to six, day of month from characters eight to nine. -/
def dateUTC (s : String) : Int × Nat × Nat :=
  (((digitsVal (s.data.take 4) : Nat) : Int),
   digitsVal ((s.data.drop 5).take 2) - 1,
   digitsVal ((s.data.drop 8).take 2))

/-- The decomposition a host at UTC-12:00 computes for the fixture timestamp
2023-03-05T00:00:00Z: local time is 2023-03-04T12:00, so `getDate()` is 4.
Other strings are decomposed as at UTC (irrelevant to its uses). -/
def dateUTCminus12 (s : String) : Int × Nat × Nat :=
  if s = "2023-03-05T00:00:00Z" then ((2023 : Int), 2, 4) else dateUTC s

/-- One comment line (src/index.js lines 120-139): bullet, bracketed date with
the month and day zero-padded by the two `if` statements of the source, then
the comment text. -/
def renderActionLine (env : Env) (action : Action) : String :=
  let actionDate := env action.date
  let month :=
    if actionDate.2.1 + 1 < 10 then "0" ++ toString (actionDate.2.1 + 1)
    else toString (actionDate.2.1 + 1)
  let day :=
    if actionDate.2.2 < 10 then "0" ++ toString actionDate.2.2
    else toString actionDate.2.2
  "* " ++ "[" ++ toString actionDate.1 ++ "-" ++ month ++ "-" ++ day ++ "] "
    ++ action.data.text ++ "\n"

/-- The comment block: the action loop appends one line per action of the
given sequence, in sequence order. -/
def actionsPart (env : Env) (acts : List Action) : String :=
  acts.foldl (fun s a => s ++ renderActionLine env a) ""

/-- Checkbox marker (src/index.js lines 160-164): `"[ ] "` exactly for state
`"incomplete"`, `"[X] "` for every other state string. -/
def checkBox (state : String) : String :=
  if state == "incomplete" then "[ ] " else "[X] "

/-- One check item line: indented bullet, checkbox marker, item name. -/
def renderCheckItem (item : CheckItem) : String :=
  "\t* " ++ checkBox item.state ++ item.name ++ "\n"

/-- The check item loop of one checklist. -/
def checkItemsPart (items : List CheckItem) : String :=
  items.foldl (fun s it => s ++ renderCheckItem it) ""

/-- The checklist loop (src/index.js lines 154-169): each checklist emits
`prefNL`, the bullet, the variant's pre-text, the checklist name, then its
items. -/
def checklistsPart (pre : String) (prefNL : String) (cls : List Checklist) : String :=
  cls.foldl (fun s cl =>
    s ++ prefNL ++ "* " ++ pre ++ cl.name ++ "\n" ++ checkItemsPart cl.checkItems) ""

/-- The label loop (src/index.js lines 105-108): each label is rendered as
`\[name\] ` with escaped brackets. -/
def labelsPart (labels : List Label) : String :=
  labels.foldl (fun s label => s ++ "\\[" ++ label.name ++ "\\] ") ""

/-- Card heading (src/index.js line 111): `CARD_PREFIX` (a newline and the
heading marker), the card name, a space, the label string, a newline. -/
def cardTitle (card : Card) : String :=
  "\n## " ++ card.name ++ " " ++ labelsPart card.labels ++ "\n"

/-- JavaScript string coercion of the `desc` value appended to `mdString`:
an absent field (`undefined`) concatenates as the text "undefined". -/
def descText : Option String → String
  | some d => d
  | none => "undefined"

/-- Description block (src/index.js lines 114-116): emitted whenever
`card.desc !== ""`, i.e. whenever `desc` is not the present-and-empty string;
an absent `desc` passes the test and is coerced to "undefined". -/
def cardDesc (card : Card) : String :=
  if card.desc ≠ some "" then descText card.desc ++ "\n\n" else ""

/-- The checklist section of a card (src/index.js lines 147-170): nothing when
there is no checklist; otherwise the checklist loop with `prefNL` set to a
newline exactly when the card has actions. -/
def checklistsSeg (pre : String) (racts : List Action) (cls : List Checklist) : String :=
  if cls.length > 0 then
    checklistsPart pre (if racts.length > 0 then "\n" else "") cls
  else ""

/-- The card loop body (src/index.js lines 100-176). `_.reverse(card.ACTIONS)`
reverses the attached ACTIONS array in place, so the result is both the
emitted text and the card as it stands afterwards (its `ACTIONS` field now
holds the reversed sequence). -/
def renderCard (env : Env) (pre : String) (card : EnrichedCard) : String × EnrichedCard :=
  let racts := card.ACTIONS.reverse
  let md := cardTitle card.card ++ cardDesc card.card
    ++ actionsPart env racts
    ++ (if racts.length > 0 then "\n" else "")
    ++ checklistsSeg pre racts card.CHECKLISTS
    ++ (if racts.length = 0 ∧ card.CHECKLISTS.length = 0 then "\n\n" else "")
  (md, { card with ACTIONS := racts })

/-- The card loop over a list's CARDS: concatenates the cards' text and
collects the cards as mutated by the loop. -/
def renderCards (env : Env) (pre : String) (cards : List EnrichedCard) :
    String × List EnrichedCard :=
  cards.foldl (fun acc card =>
    let r := renderCard env pre card
    (acc.1 ++ r.1, acc.2 ++ [r.2])) ("", [])

/-- One iteration of the V2 renderer's list loop (src/index.js lines 87-179):
a list id absent from the mapping is skipped entirely (lines 90-92); otherwise
the heading, the cards and the trailing newline are appended and the entry now
holds the cards as mutated by the card loop. -/
def mdStep (env : Env) (pre : String) (acc : String × TMap) (list : TrelloList) :
    String × TMap :=
  match acc.2 list.id with
  | none => acc
  | some currentObject =>
    let r := renderCards env pre currentObject.CARDS
    (acc.1 ++ "# " ++ currentObject.list.name ++ "\n" ++ r.1 ++ "\n",
     tset acc.2 list.id { currentObject with CARDS := r.2 })

/-- `convertTrelloObjectToMarkdown` of src/index.js: folds the guarded list
loop over `listArray`; the first component is the returned `mdString`, the
second the mapping as it stands after the loop's in-place mutations. -/
def convertTrelloObjectToMarkdown (env : Env) (listArray : List TrelloList)
    (trelloObject : TMap) : String × TMap :=
  listArray.foldl (mdStep env "") ("", trelloObject)

/-- One iteration of the V0 renderer's list loop (part_000 lines 75-161):
there is no guard, so a list id absent from the mapping dereferences
`undefined` — a TypeError, modelled as `none`. -/
def mdStepV0 (env : Env) (acc : Option (String × TMap)) (list : TrelloList) :
    Option (String × TMap) :=
  match acc with
  | none => none
  | some a =>
    match a.2 list.id with
    | none => none
    | some currentObject =>
      let r := renderCards env "Checklist: " currentObject.CARDS
      some (a.1 ++ "# " ++ currentObject.list.name ++ "\n" ++ r.1 ++ "\n",
        tset a.2 list.id { currentObject with CARDS := r.2 })

/-- `convertTrelloObjectToMarkdown` of part_000: the unguarded list loop;
`none` is the run that died with a TypeError. -/
def convertTrelloObjectToMarkdownV0 (env : Env) (listArray : List TrelloList)
    (trelloObject : TMap) : Option (String × TMap) :=
  listArray.foldl (mdStepV0 env) (some ("", trelloObject))

/-- `convertJson` of src/index.js restricted to its transform core: reshape,
then render over the original `trelloJson.lists` order. -/
def convertJson (env : Env) (intObject : TMap) (trelloJson : Board) : String × TMap :=
  let trelloObject := convertJsonToInternalObject intObject trelloJson
  convertTrelloObjectToMarkdown env trelloJson.lists trelloObject

/-- `convertJson` of part_000 restricted to its transform core. -/
def convertJsonV0 (env : Env) (intObject : TMap) (trelloJson : Board) :
    Option (String × TMap) :=
  let trelloObject := convertJsonToInternalObjectV0 intObject trelloJson
  convertTrelloObjectToMarkdownV0 env trelloJson.lists trelloObject

/-- The end-to-end fixture board of the specification: board "Demo", one open
list "Todo" (id L1) with one card "Task A" (id C1, description "do it", label
"urgent"), one commentCard action ("started", 2023-03-05T00:00:00Z) and one
checklist "Steps" with items "a" complete and "b" incomplete. -/
def fixtureBoard : Board :=
  { name := "Demo"
  , lists := [{ id := "L1", name := "Todo", closed := false }]
  , cards := [{ id := "C1", name := "Task A", desc := some "do it"
              , labels := [{ name := "urgent" }], idList := "L1", closed := false }]
  , actions := [{ type := "commentCard", date := "2023-03-05T00:00:00Z"
                , data := { card := { id := "C1" }, text := "started" } }]
  , checklists := [{ name := "Steps", idCard := "C1"
                   , checkItems := [{ name := "a", state := "complete" }
                                   , { name := "b", state := "incomplete" }] }] }

/-- Fixture comment shared by several scenarios. -/
def fixtureAction : Action :=
  { type := "commentCard", date := "2023-03-05T00:00:00Z"
  , data := { card := { id := "C1" }, text := "started" } }

/-- Open list of the closed-flag fixture. -/
def listLO : TrelloList := { id := "LO", name := "Open", closed := false }

/-- Closed list of the closed-flag fixture. -/
def listLC : TrelloList := { id := "LC", name := "Closed", closed := true }

/-- Open card on the open list. -/
def cardO : Card :=
  { id := "CO", name := "CardO", desc := some "", labels := [], idList := "LO", closed := false }

/-- Closed card on the open list. -/
def cardC : Card :=
  { id := "CC", name := "CardC", desc := some "", labels := [], idList := "LO", closed := true }

/-- Open card on the closed list. -/
def cardL : Card :=
  { id := "CL", name := "CardL", desc := some "", labels := [], idList := "LC", closed := false }

/-- Closed-flag fixture: one open and one closed list, cards on each. -/
def fixtureC3 : Board :=
  { name := "F", lists := [listLO, listLC], cards := [cardO, cardC, cardL]
  , actions := [], checklists := [] }

/-- Concatenation of a list of strings, left to right. -/
def joinAll (l : List String) : String := l.foldr (fun a s => a ++ s) ""

/-- Zero-padded two-digit rendering of a month or day number. -/
def pad2 (n : Nat) : String := if n < 10 then "0" ++ toString n else toString n

/-- The in-place effect of the card loop on one card: `_.reverse(card.ACTIONS)`
leaves the card with its ACTIONS array reversed. -/
def revA (c : EnrichedCard) : EnrichedCard := { c with ACTIONS := c.ACTIONS.reverse }

/-- The in-place effect of rendering one list entry: every card's ACTIONS
array is reversed. -/
def revE (e : EnrichedList) : EnrichedList := { e with CARDS := e.CARDS.map revA }

/-- The renderer's list loop restricted to its effect on the mapping. -/
def mStep (m : TMap) (list : TrelloList) : TMap :=
  match m list.id with
  | none => m
  | some e => tset m list.id (revE e)

/-- Comment dated 2023-03-01, text "one". -/
def actionOne : Action :=
  { type := "commentCard", date := "2023-03-01T00:00:00Z"
  , data := { card := { id := "C1" }, text := "one" } }

/-- Comment dated 2023-03-02, text "two". -/
def actionTwo : Action :=
  { type := "commentCard", date := "2023-03-02T00:00:00Z"
  , data := { card := { id := "C1" }, text := "two" } }

/-- Board whose single card carries two comments, in export order one, two. -/
def fixtureC8 : Board :=
  { name := "B", lists := [{ id := "L1", name := "Todo", closed := false }]
  , cards := [{ id := "C1", name := "Task", desc := some "", labels := []
              , idList := "L1", closed := false }]
  , actions := [actionOne, actionTwo], checklists := [] }

/-- Checklist "Steps" with no items. -/
def clSteps : Checklist := { name := "Steps", idCard := "C6", checkItems := [] }

/-- Card with one comment and one checklist. -/
def cardC6 : EnrichedCard :=
  { card := { id := "C6", name := "T", desc := some "", labels := []
            , idList := "L1", closed := false }
  , ACTIONS := [fixtureAction], CHECKLISTS := [clSteps] }

/-- Card with no comment and one checklist. -/
def cardC6b : EnrichedCard :=
  { card := { id := "C6", name := "T", desc := some "", labels := []
            , idList := "L1", closed := false }
  , ACTIONS := [], CHECKLISTS := [clSteps] }

/-- Card whose exported record carries no desc field at all. -/
def cardNoDesc : EnrichedCard :=
  { card := { id := "CX", name := "T", desc := none, labels := []
            , idList := "L1", closed := false }
  , ACTIONS := [], CHECKLISTS := [] }

/-- Card whose desc field is present and empty. -/
def cardEmptyDesc : EnrichedCard :=
  { card := { id := "CX", name := "T", desc := some "", labels := []
            , idList := "L1", closed := false }
  , ACTIONS := [], CHECKLISTS := [] }

theorem foldl_app {α : Type} (f : α → String) (g : String → α → String)
    (hg : ∀ s a, g s a = s ++ f a) :
    ∀ (l : List α) (s : String), l.foldl g s = s ++ joinAll (l.map f) := by
  intro l
  induction l with
  | nil => intro s; simp [joinAll]
  | cons a l ih =>
    intro s
    rw [List.foldl_cons, ih, hg]
    simp [joinAll, String.append_assoc]

theorem reshape_skip (j : Board) :
    ∀ (ls : List TrelloList) (m : TMap) (k : String),
      (∀ l ∈ ls, l.closed = false → l.id ≠ k) →
      ls.foldl (reshapeStep j) m k = m k := by
  intro ls
  induction ls with
  | nil => intro m k _; rfl
  | cons l ls ih =>
    intro m k h
    rw [List.foldl_cons, ih _ k (fun x hx => h x (List.mem_cons_of_mem _ hx))]
    unfold reshapeStep tset
    by_cases hc : l.closed = true
    · rw [if_pos hc]
    · rw [if_neg hc]
      have hne : l.id ≠ k := h l (List.mem_cons_self _ _) (by simpa using hc)
      rw [if_neg (fun hh => hne hh.symm)]

theorem reshapeV0_skip (j : Board) :
    ∀ (ls : List TrelloList) (m : TMap) (k : String),
      (∀ l ∈ ls, l.id ≠ k) →
      ls.foldl (reshapeStepV0 j) m k = m k := by
  intro ls
  induction ls with
  | nil => intro m k _; rfl
  | cons l ls ih =>
    intro m k h
    rw [List.foldl_cons, ih _ k (fun x hx => h x (List.mem_cons_of_mem _ hx))]
    unfold reshapeStepV0 tset
    have hne : l.id ≠ k := h l (List.mem_cons_self _ _)
    rw [if_neg (fun hh => hne hh.symm)]

theorem reshape_written (j : Board) :
    ∀ (ls : List TrelloList) (m : TMap) (k : String) (e : EnrichedList),
      ls.foldl (reshapeStep j) m k = some e →
      m k = some e ∨ ∃ l, l ∈ ls ∧ l.closed = false ∧ l.id = k ∧ e = listEntry j l := by
  intro ls
  induction ls with
  | nil => intro m k e h; exact Or.inl h
  | cons l ls ih =>
    intro m k e h
    rw [List.foldl_cons] at h
    rcases ih _ k e h with h1 | ⟨x, hx, hcl, hid, he⟩
    · unfold reshapeStep tset at h1
      by_cases hc : l.closed = true
      · rw [if_pos hc] at h1; exact Or.inl h1
      · rw [if_neg hc] at h1
        by_cases hk : k = l.id
        · rw [if_pos hk] at h1
          exact Or.inr ⟨l, List.mem_cons_self _ _, by simpa using hc, hk.symm,
            (Option.some.inj h1).symm⟩
        · rw [if_neg hk] at h1; exact Or.inl h1
    · exact Or.inr ⟨x, List.mem_cons_of_mem _ hx, hcl, hid, he⟩

theorem reshapeV0_written (j : Board) :
    ∀ (ls : List TrelloList) (m : TMap) (k : String) (e : EnrichedList),
      ls.foldl (reshapeStepV0 j) m k = some e →
      m k = some e ∨ ∃ l, l ∈ ls ∧ l.id = k ∧ e = listEntryV0 j l := by
  intro ls
  induction ls with
  | nil => intro m k e h; exact Or.inl h
  | cons l ls ih =>
    intro m k e h
    rw [List.foldl_cons] at h
    rcases ih _ k e h with h1 | ⟨x, hx, hid, he⟩
    · unfold reshapeStepV0 tset at h1
      by_cases hk : k = l.id
      · rw [if_pos hk] at h1
        exact Or.inr ⟨l, List.mem_cons_self _ _, hk.symm, (Option.some.inj h1).symm⟩
      · rw [if_neg hk] at h1; exact Or.inl h1
    · exact Or.inr ⟨x, List.mem_cons_of_mem _ hx, hid, he⟩

theorem reshapeV0_keeps (j : Board) :
    ∀ (ls : List TrelloList) (m : TMap) (k : String),
      (m k).isSome = true → ((ls.foldl (reshapeStepV0 j) m) k).isSome = true := by
  intro ls
  induction ls with
  | nil => intro m k h; exact h
  | cons l ls ih =>
    intro m k h
    rw [List.foldl_cons]
    apply ih
    unfold reshapeStepV0 tset
    by_cases hk : k = l.id
    · simp [hk]
    · simpa [hk] using h

theorem reshapeV0_covers (j : Board) :
    ∀ (ls : List TrelloList) (m : TMap) (l : TrelloList), l ∈ ls →
      ((ls.foldl (reshapeStepV0 j) m) l.id).isSome = true := by
  intro ls
  induction ls with
  | nil => intro m l h; cases h
  | cons x ls ih =>
    intro m l h
    rcases List.mem_cons.mp h with rfl | h2
    · rw [List.foldl_cons]
      apply reshapeV0_keeps
      unfold reshapeStepV0 tset
      simp
    · exact ih _ _ h2

theorem renderCards_acc (env : Env) (pre : String) :
    ∀ (cards : List EnrichedCard) (s : String) (cs : List EnrichedCard),
      (cards.foldl (fun acc card =>
        let r := renderCard env pre card
        (acc.1 ++ r.1, acc.2 ++ [r.2])) (s, cs)).2 = cs ++ cards.map revA := by
  intro cards
  induction cards with
  | nil => intro s cs; simp
  | cons c cards ih =>
    intro s cs
    rw [List.foldl_cons, ih]
    simp [renderCard, revA]

theorem renderCards_snd (env : Env) (pre : String) (cards : List EnrichedCard) :
    (renderCards env pre cards).2 = cards.map revA := by
  unfold renderCards
  rw [renderCards_acc]
  simp

theorem mdStep_snd (env : Env) (pre : String) (acc : String × TMap) (l : TrelloList) :
    (mdStep env pre acc l).2 = mStep acc.2 l := by
  unfold mdStep mStep
  cases h : acc.2 l.id with
  | none => simp [h]
  | some e => simp [h, renderCards_snd, revE]

theorem mdfold_snd (env : Env) (pre : String) :
    ∀ (ls : List TrelloList) (acc : String × TMap),
      (ls.foldl (mdStep env pre) acc).2 = ls.foldl mStep acc.2 := by
  intro ls
  induction ls with
  | nil => intro acc; rfl
  | cons l ls ih =>
    intro acc
    rw [List.foldl_cons, List.foldl_cons, ih, mdStep_snd]

theorem mStep_skip :
    ∀ (ls : List TrelloList) (m : TMap) (k : String),
      (∀ l ∈ ls, l.id ≠ k) → ls.foldl mStep m k = m k := by
  intro ls
  induction ls with
  | nil => intro m k _; rfl
  | cons l ls ih =>
    intro m k h
    rw [List.foldl_cons, ih _ k (fun x hx => h x (List.mem_cons_of_mem _ hx))]
    have hne : l.id ≠ k := h l (List.mem_cons_self _ _)
    unfold mStep
    cases hm : m l.id with
    | none => rfl
    | some e =>
      show tset m l.id (revE e) k = m k
      unfold tset
      rw [if_neg (fun hh => hne hh.symm)]

theorem mfold_lookup :
    ∀ (ls : List TrelloList) (m : TMap) (k : String),
      (ls.map TrelloList.id).Nodup →
      ls.foldl mStep m k
        = if k ∈ ls.map TrelloList.id then (m k).map revE else m k := by
  intro ls
  induction ls with
  | nil => intro m k _; simp
  | cons l ls ih =>
    intro m k hnd
    rw [List.map_cons, List.nodup_cons] at hnd
    rw [List.foldl_cons]
    by_cases hk : k = l.id
    · subst hk
      rw [mStep_skip ls (mStep m l) l.id
        (fun x hx hex => hnd.1 (hex ▸ List.mem_map_of_mem TrelloList.id hx))]
      unfold mStep
      cases h : m l.id with
      | none => simp [h]
      | some e =>
        have : tset m l.id (revE e) l.id = some (revE e) := by
          unfold tset
          rw [if_pos rfl]
        simp [h, this]
    · rw [ih (mStep m l) k hnd.2]
      have hmk : mStep m l k = m k := by
        unfold mStep
        cases h : m l.id with
        | none => rfl
        | some e =>
          show tset m l.id (revE e) k = m k
          unfold tset
          rw [if_neg hk]
      rw [hmk]
      simp [List.mem_cons, hk]

theorem joinAll_cons (a : String) (l : List String) :
    joinAll (a :: l) = a ++ joinAll l := rfl

theorem checklistsPart_eq (pre prefNL : String) (cls : List Checklist) :
    checklistsPart pre prefNL cls
      = joinAll (cls.map (fun x =>
          prefNL ++ ("* " ++ (pre ++ (x.name ++ ("\n" ++ checkItemsPart x.checkItems)))))) := by
  unfold checklistsPart
  rw [foldl_app (fun x : Checklist =>
        prefNL ++ ("* " ++ (pre ++ (x.name ++ ("\n" ++ checkItemsPart x.checkItems)))))
      _ (fun s a => by simp [String.append_assoc])]
  exact String.empty_append _

/-- C2: the renderer reverses each card's attached comment sequence exactly
once: after the card loop the card's ACTIONS equal the reverse of the sequence
the reshaper attached, reversing the emitted sequence restores the export
order, and the emitted comment block is the concatenation of the per-comment
lines taken in reverse export order. -/
theorem claimC2 (env : Env) (pre : String) (c : EnrichedCard) :
    (renderCard env pre c).2.ACTIONS = c.ACTIONS.reverse
    ∧ ((renderCard env pre c).2.ACTIONS).reverse = c.ACTIONS
    ∧ actionsPart env c.ACTIONS.reverse
        = joinAll ((c.ACTIONS.map (renderActionLine env)).reverse) := by
  refine ⟨rfl, List.reverse_reverse _, ?_⟩
  unfold actionsPart
  rw [foldl_app (renderActionLine env) _ (fun s a => rfl), List.map_reverse]
  exact String.empty_append _

/-- C5: the checkbox marker is the unchecked box exactly for state
"incomplete"; every other state string yields the checked box without failure;
a check item line is the indented bullet, the marker and the item name. -/
theorem claimC5 (st : String) (item : CheckItem) :
    (checkBox st = "[ ] " ↔ st = "incomplete")
    ∧ (checkBox st = "[X] " ↔ ¬st = "incomplete")
    ∧ renderCheckItem item = "\t* " ++ checkBox item.state ++ item.name ++ "\n" := by
  refine ⟨?_, ?_, rfl⟩ <;> unfold checkBox <;>
    by_cases h : st = "incomplete" <;> simp [h]

/-- C5 witness: the unrecognized state "done" yields the checked marker and an
incomplete item line carries the unchecked marker. -/
theorem claimC5_witness :
    (checkBox "done" = "[ ] " ↔ "done" = "incomplete")
    ∧ (checkBox "done" = "[X] " ↔ ¬"done" = "incomplete")
    ∧ renderCheckItem { name := "b", state := "incomplete" }
        = "\t* " ++ checkBox "incomplete" ++ "b" ++ "\n" :=
  claimC5 "done" { name := "b", state := "incomplete" }

/-- C3: in the variant that checks the closed flag a key written only by
closed lists stays absent from the mapping and every card of a freshly
written entry has closed = false; in the variant that omits the check every
input list's id is a key and every matching card is attached regardless of
its closed flag. -/
theorem claimC3 :
    (∀ (j : Board) (m : TMap) (k : String), m k = none →
        (∀ l ∈ j.lists, l.id = k → l.closed = true) →
        convertJsonToInternalObject m j k = none)
    ∧ (∀ (j : Board) (m : TMap) (k : String) (e : EnrichedList) (c : EnrichedCard),
        convertJsonToInternalObject m j k = some e → c ∈ e.CARDS →
        m k = some e ∨ c.card.closed = false)
    ∧ (∀ (j : Board) (m : TMap) (l : TrelloList), l ∈ j.lists →
        (convertJsonToInternalObjectV0 m j l.id).isSome = true)
    ∧ (∀ (j : Board) (m : TMap) (k : String) (e : EnrichedList) (c : Card),
        convertJsonToInternalObjectV0 m j k = some e → c ∈ j.cards → c.idList = k →
        m k = some e ∨ enrichCard j c ∈ e.CARDS) := by
  refine ⟨?_, ?_, ?_, ?_⟩
  · intro j m k hm h
    unfold convertJsonToInternalObject
    rw [reshape_skip j j.lists m k ?_]
    · exact hm
    · intro l hl hcf hid
      have ht := h l hl hid
      rw [ht] at hcf
      cases hcf
  · intro j m k e c he hc
    rcases reshape_written j j.lists m k e he with h1 | ⟨l, _, _, _, hee⟩
    · exact Or.inl h1
    · right
      subst hee
      simp only [listEntry] at hc
      rcases List.mem_map.mp hc with ⟨c0, hc0, hcc⟩
      rcases List.mem_filter.mp hc0 with ⟨_, hp⟩
      have hcl0 : c0.closed = false := by
        have hp2 := (Bool.and_eq_true _ _).mp hp
        simpa using hp2.2
      rw [← hcc]
      simpa [enrichCard] using hcl0
  · intro j m l hl
    exact reshapeV0_covers j j.lists m l hl
  · intro j m k e c he hcm hid
    rcases reshapeV0_written j j.lists m k e he with h1 | ⟨l, _, hid2, hee⟩
    · exact Or.inl h1
    · right
      subst hee
      simp only [listEntryV0]
      apply List.mem_map.mpr
      refine ⟨c, ?_, rfl⟩
      apply List.mem_filter.mpr
      exact ⟨hcm, by simp [hid, hid2]⟩

/-- C3 witness: on the two-list fixture, the closed list id is no key of the
V2 mapping, the open entry's card is open, the V0 mapping keys the closed
list, and the closed-list card is attached there in V0. -/
theorem claimC3_witness :
    convertJsonToInternalObject emptyTMap fixtureC3 "LC" = none
    ∧ (emptyTMap "LO" = some (listEntry fixtureC3 listLO)
        ∨ (enrichCard fixtureC3 cardO).card.closed = false)
    ∧ (convertJsonToInternalObjectV0 emptyTMap fixtureC3 listLC.id).isSome = true
    ∧ (emptyTMap "LC" = some (listEntryV0 fixtureC3 listLC)
        ∨ enrichCard fixtureC3 cardL ∈ (listEntryV0 fixtureC3 listLC).CARDS) :=
  ⟨claimC3.1 fixtureC3 emptyTMap "LC" rfl (by decide),
   claimC3.2.1 fixtureC3 emptyTMap "LO" (listEntry fixtureC3 listLO)
     (enrichCard fixtureC3 cardO) (by decide) (by decide),
   claimC3.2.2.1 fixtureC3 emptyTMap listLC (by decide),
   claimC3.2.2.2 fixtureC3 emptyTMap "LC" (listEntryV0 fixtureC3 listLC) cardL
     (by decide) (by decide) (by decide)⟩

/-- C4: a list id absent from the mapping is skipped by the guarded renderer:
the loop step returns its accumulator unchanged (no heading, no text, no
state change, and the step is a total function, so no crash), hence the
render of such a head list equals the render of the remaining lists; in the
variant without the guard the reshaper keys every list of its own input, so a
list of the input is never absent from the mapping it renders. -/
theorem claimC4 :
    (∀ (env : Env) (pre : String) (acc : String × TMap) (list : TrelloList),
        acc.2 list.id = none → mdStep env pre acc list = acc)
    ∧ (∀ (env : Env) (l : TrelloList) (ls : List TrelloList) (m : TMap),
        m l.id = none →
        convertTrelloObjectToMarkdown env (l :: ls) m
          = convertTrelloObjectToMarkdown env ls m)
    ∧ (∀ (j : Board) (m : TMap) (l : TrelloList), l ∈ j.lists →
        convertJsonToInternalObjectV0 m j l.id ≠ none) := by
  have hstep : ∀ (env : Env) (pre : String) (acc : String × TMap) (list : TrelloList),
      acc.2 list.id = none → mdStep env pre acc list = acc := by
    intro env pre acc list h
    unfold mdStep
    rw [h]
  refine ⟨hstep, ?_, ?_⟩
  · intro env l ls m h
    unfold convertTrelloObjectToMarkdown
    rw [List.foldl_cons, hstep env "" ("", m) l h]
  · intro j m l hl
    exact Option.ne_none_iff_isSome.mpr (reshapeV0_covers j j.lists m l hl)

/-- C4 witness: rendering a list sequence whose head is absent from the empty
mapping equals rendering the empty sequence. -/
theorem claimC4_witness :
    convertTrelloObjectToMarkdown dateUTC [listLO] emptyTMap
      = convertTrelloObjectToMarkdown dateUTC [] emptyTMap :=
  claimC4.2.1 dateUTC listLO [] emptyTMap rfl

/-- C10: the reshaper threads one process-global mapping in both variants:
a second call returns that mapping updated, and every entry whose key occurs
in no list of the second call's input is still present, unchanged, in the
second call's result. -/
theorem claimC10 (m : TMap) (j1 j2 : Board) (k : String)
    (h : ∀ l ∈ j2.lists, l.id ≠ k) :
    convertJsonToInternalObject (convertJsonToInternalObject m j1) j2 k
      = convertJsonToInternalObject m j1 k
    ∧ convertJsonToInternalObjectV0 (convertJsonToInternalObjectV0 m j1) j2 k
      = convertJsonToInternalObjectV0 m j1 k := by
  constructor
  · unfold convertJsonToInternalObject
    exact reshape_skip j2 j2.lists _ k (fun l hl _ => h l hl)
  · unfold convertJsonToInternalObjectV0
    exact reshapeV0_skip j2 j2.lists _ k h

/-- C10 witness: the entry written for list L1 by a first reshape call is
still present after a second call on a board whose lists carry other ids. -/
theorem claimC10_witness :
    convertJsonToInternalObject (convertJsonToInternalObject emptyTMap fixtureBoard)
        fixtureC3 "L1"
      = convertJsonToInternalObject emptyTMap fixtureBoard "L1"
    ∧ convertJsonToInternalObjectV0 (convertJsonToInternalObjectV0 emptyTMap fixtureBoard)
        fixtureC3 "L1"
      = convertJsonToInternalObjectV0 emptyTMap fixtureBoard "L1" :=
  claimC10 emptyTMap fixtureBoard fixtureC3 "L1" (by decide)

/-- C1 counterexample: on the end-to-end fixture neither variant produces the
document the specification shows, which separates the comment line from the
checklist bullet by a single blank line. -/
theorem claimC1_cex :
    (convertJson dateUTC emptyTMap fixtureBoard).1
      ≠ "# Todo\n\n## Task A \\[urgent\\] \ndo it\n\n* [2023-03-05] started\n\n* Steps\n\t* [X] a\n\t* [ ] b\n\n"
    ∧ (convertJsonV0 dateUTC emptyTMap fixtureBoard).map Prod.fst
      ≠ some "# Todo\n\n## Task A \\[urgent\\] \ndo it\n\n* [2023-03-05] started\n\n* Checklist: Steps\n\t* [X] a\n\t* [ ] b\n\n" := by
  constructor <;> decide

/-- C1 amended: the reshape-then-render pipeline renders the fixture board as
the specification's document — list heading, card heading with escaped
bracketed label, description then a blank line, the comment line
`* [2023-03-05] started`, the checklist bullet with items `[X] a` and `[ ] b`,
in the order title, description, comments, checklist — except that two blank
lines, not one, stand between the comment line and the checklist bullet, in
both variants. -/
theorem claimC1 :
    (convertJson dateUTC emptyTMap fixtureBoard).1
      = "# Todo\n\n## Task A \\[urgent\\] \ndo it\n\n* [2023-03-05] started\n\n\n* Steps\n\t* [X] a\n\t* [ ] b\n\n"
    ∧ (convertJsonV0 dateUTC emptyTMap fixtureBoard).map Prod.fst
      = some "# Todo\n\n## Task A \\[urgent\\] \ndo it\n\n* [2023-03-05] started\n\n\n* Checklist: Steps\n\t* [X] a\n\t* [ ] b\n\n" := by
  constructor <;> rfl

/-- C6 counterexample: a card with one comment and one checklist renders with
two blank lines between the comment line and the checklist bullet, not the
single blank line the claim states. -/
theorem claimC6_cex :
    (renderCard dateUTC "" cardC6).1
      ≠ "\n## T \n* [2023-03-05] started\n\n* Steps\n"
    ∧ (renderCard dateUTC "" cardC6).1
      = "\n## T \n* [2023-03-05] started\n\n\n* Steps\n" := by
  constructor
  · decide
  · rfl

/-- C6 amended: when comments and checklists are both present the comment
block is followed by one blank line and the per-checklist prefix contributes
one more, so exactly two blank lines separate the comment block from the
first checklist bullet; when checklists are present without comments, no
blank line precedes the first checklist bullet. -/
theorem claimC6 (env : Env) (pre : String) (c : EnrichedCard)
    (cl : Checklist) (cls : List Checklist) :
    (c.ACTIONS ≠ [] → c.CHECKLISTS = cl :: cls →
      (renderCard env pre c).1
        = cardTitle c.card ++ cardDesc c.card ++ actionsPart env c.ACTIONS.reverse
          ++ "\n\n"
          ++ ("* " ++ pre ++ cl.name ++ "\n" ++ checkItemsPart cl.checkItems)
          ++ joinAll (cls.map (fun x =>
              "\n" ++ ("* " ++ pre ++ x.name ++ "\n" ++ checkItemsPart x.checkItems))))
    ∧ (c.ACTIONS = [] → c.CHECKLISTS = cl :: cls →
      (renderCard env pre c).1
        = cardTitle c.card ++ cardDesc c.card
          ++ ("* " ++ pre ++ cl.name ++ "\n" ++ checkItemsPart cl.checkItems)
          ++ joinAll (cls.map (fun x =>
              "* " ++ pre ++ x.name ++ "\n" ++ checkItemsPart x.checkItems))) := by
  constructor
  · intro ha hcl
    have h1 : 0 < c.ACTIONS.reverse.length := by
      rw [List.length_reverse]
      exact List.length_pos.mpr ha
    show cardTitle c.card ++ cardDesc c.card ++ actionsPart env c.ACTIONS.reverse
        ++ (if c.ACTIONS.reverse.length > 0 then "\n" else "")
        ++ checklistsSeg pre c.ACTIONS.reverse c.CHECKLISTS
        ++ (if c.ACTIONS.reverse.length = 0 ∧ c.CHECKLISTS.length = 0 then "\n\n" else "")
      = _
    rw [hcl, if_pos h1, if_neg (fun hh => (Nat.pos_iff_ne_zero.mp h1) hh.1)]
    unfold checklistsSeg
    rw [if_pos (by simp), if_pos h1, checklistsPart_eq]
    simp [joinAll_cons, String.append_assoc]
    rw [← String.append_assoc "\n" "\n"]
    rfl
  · intro ha hcl
    show cardTitle c.card ++ cardDesc c.card ++ actionsPart env c.ACTIONS.reverse
        ++ (if c.ACTIONS.reverse.length > 0 then "\n" else "")
        ++ checklistsSeg pre c.ACTIONS.reverse c.CHECKLISTS
        ++ (if c.ACTIONS.reverse.length = 0 ∧ c.CHECKLISTS.length = 0 then "\n\n" else "")
      = _
    rw [ha, hcl]
    unfold checklistsSeg
    simp [actionsPart, checklistsPart_eq, joinAll_cons, String.append_assoc,
      String.empty_append, String.append_empty]

/-- C6 amended witness: the one-comment-one-checklist card and the
no-comment-one-checklist card render with two and zero separating blank lines
respectively. -/
theorem claimC6_witness :
    (renderCard dateUTC "" cardC6).1 = "\n## T \n* [2023-03-05] started\n\n\n* Steps\n"
    ∧ (renderCard dateUTC "" cardC6b).1 = "\n## T \n* Steps\n" :=
  ⟨((claimC6 dateUTC "" cardC6 clSteps []).1 (by decide) rfl).trans (by decide),
   ((claimC6 dateUTC "" cardC6b clSteps []).2 rfl rfl).trans (by decide)⟩

/-- C7: a card exported without a desc field renders a description block
holding the literal text "undefined" (the JavaScript coercion of `undefined`,
which passes the `card.desc !== ""` test), whereas a card with a present
empty desc renders no description block and no blank line for it. -/
theorem claimC7_eval :
    (renderCard dateUTC "" cardNoDesc).1 = "\n## T \nundefined\n\n\n\n"
    ∧ (renderCard dateUTC "" cardEmptyDesc).1 = "\n## T \n\n\n" := by
  constructor <;> rfl

/-- C8 counterexample: on a board whose card carries two comments the mapping
entry after rendering differs from the entry the reshaper produced — the card
loop reversed the attached ACTIONS array in place. -/
theorem claimC8_cex :
    (convertTrelloObjectToMarkdown dateUTC fixtureC8.lists
        (convertJsonToInternalObject emptyTMap fixtureC8)).2 "L1"
      ≠ convertJsonToInternalObject emptyTMap fixtureC8 "L1" := by
  decide

/-- C8 amended: rendering changes the reshaped mapping exactly by reversing
each rendered card's attached comment sequence in place: over a render order
without duplicate list ids, an entry whose id is rendered becomes its revE
image (ACTIONS of every card reversed, all other fields untouched) and every
entry whose id is not rendered is untouched. -/
theorem claimC8 (env : Env) (ls : List TrelloList) (m : TMap) (k : String)
    (h : (ls.map TrelloList.id).Nodup) :
    (convertTrelloObjectToMarkdown env ls m).2 k
      = if k ∈ ls.map TrelloList.id then (m k).map revE else m k := by
  unfold convertTrelloObjectToMarkdown
  rw [mdfold_snd]
  exact mfold_lookup ls m k h

/-- C8 witness: the two-comment fixture entry after rendering equals the revE
image of the reshaper's entry. -/
theorem claimC8_witness :
    (convertTrelloObjectToMarkdown dateUTC fixtureC8.lists
        (convertJsonToInternalObject emptyTMap fixtureC8)).2 "L1"
      = ((convertJsonToInternalObject emptyTMap fixtureC8) "L1").map revE :=
  (claimC8 dateUTC fixtureC8.lists (convertJsonToInternalObject emptyTMap fixtureC8)
      "L1" (by decide)).trans (if_pos (by decide))

/-- C9 counterexample: the same fixture input renders differently on a UTC
host and on a UTC-12 host, so the output is not independent of the
environment — the date tag follows the host's local calendar day. -/
theorem claimC9_cex :
    (convertJson dateUTC emptyTMap fixtureBoard).1
      ≠ (convertJson dateUTCminus12 emptyTMap fixtureBoard).1 := by
  decide

/-- C9 amended: the comment line is a pure function of the host environment's
date decomposition of the comment's timestamp and of the comment itself:
equal decompositions give equal lines; the tag is the bracketed year, month
and day with the month and day zero-padded to two digits; a UTC host renders
the fixture comment exactly as the specification shows. -/
theorem claimC9 (env env2 : Env) (a : Action) :
    (env a.date = env2 a.date → renderActionLine env a = renderActionLine env2 a)
    ∧ renderActionLine env a
        = "* " ++ "[" ++ toString (env a.date).1 ++ "-" ++ pad2 ((env a.date).2.1 + 1)
          ++ "-" ++ pad2 (env a.date).2.2 ++ "] " ++ a.data.text ++ "\n"
    ∧ renderActionLine dateUTC fixtureAction = "* [2023-03-05] started\n" := by
  refine ⟨?_, rfl, rfl⟩
  intro h
  unfold renderActionLine
  rw [h]

/-- C9 witness: a host at UTC-12 decomposes the 2023-03-01 timestamp exactly
as a UTC host does, and the rendered comment lines then agree. -/
theorem claimC9_witness :
    renderActionLine dateUTC actionOne = renderActionLine dateUTCminus12 actionOne :=
  (claimC9 dateUTC dateUTCminus12 actionOne).1 (by decide)

end Trello2md
